import Mathlib

/-!
Verification of the emergency-response domain core
(crates/libs/lib-types): triage/severity model, patient lifecycle
state machine, hospital capacity, staff priority, bed selection.

Shallow embedding conventions:
- Rust `i32` fields are modelled as `Int` (no arithmetic here overflows);
  `u8` priority codes as `Nat` (all values involved are at most 44).
- `f32` temperature is modelled as `ℚ`: every threshold used by the code
  (35.0, 36.0, 38.5, 40.0) is exactly representable in `f32`, so the
  comparisons agree with the Rust ones on every finite float input.
- `Uuid` is modelled as `Nat`, `DateTime<Utc>` as `Int`; `Utc::now()` is
  passed explicitly as a `now` argument to the mutating operations.
- `serde_json::Value` is modelled by the inductive `JsonValue` below.
-/

namespace ERS

/-- serde_json::Value, as used by the allergy / certification / specialty
fields (numbers are modelled as integers; none of the verified code
inspects a JSON number). -/
inductive JsonValue where
  | null : JsonValue
  | bool (b : Bool) : JsonValue
  | num (n : Int) : JsonValue
  | str (s : String) : JsonValue
  | arr (xs : List JsonValue) : JsonValue
  | obj (fields : List (String × JsonValue)) : JsonValue

/-- serde_json::Value::as_str. -/
def JsonValue.as_str : JsonValue → Option String
  | .str s => some s
  | _ => none

/-- enums/triage_level.rs: TriageLevel. -/
inductive TriageLevel where
  | Critical | High | Medium | Low
  deriving DecidableEq, Repr, Fintype

/-- TriageLevel::priority (numeric rank, 1 = Critical … 4 = Low). -/
def TriageLevel.priority : TriageLevel → Nat
  | .Critical => 1
  | .High => 2
  | .Medium => 3
  | .Low => 4

/-- TriageLevel::is_emergency. -/
def TriageLevel.is_emergency : TriageLevel → Bool
  | .Critical => true
  | .High => true
  | _ => false

/-- entities/patient_vitals.rs: VitalStatus. -/
inductive VitalStatus where
  | Critical | High | Low | Normal | Unknown
  deriving DecidableEq, Repr, Fintype

/-- entities/patient_vitals.rs: PatientVitals (metric fields; the id,
recorded_by, device, notes and timestamp fields play no role in any
assessment and are omitted from the vitals record). -/
structure PatientVitals where
  systolic_bp : Option Int
  diastolic_bp : Option Int
  heart_rate : Option Int
  oxygen_saturation : Option Int
  temperature : Option ℚ
  respiratory_rate : Option Int
  weight : Option ℚ
  deriving DecidableEq, Repr

namespace PatientVitals

/-- PatientVitals::blood_pressure. -/
def blood_pressure (v : PatientVitals) : Option (Int × Int) :=
  match v.systolic_bp, v.diastolic_bp with
  | some sys, some dia => some (sys, dia)
  | _, _ => none

/-- PatientVitals::bp_assessment. -/
def bp_assessment (v : PatientVitals) : VitalStatus :=
  match v.blood_pressure with
  | some (sys, dia) =>
      if sys ≥ 180 ∨ dia ≥ 120 then VitalStatus.Critical
      else if sys ≥ 140 ∨ dia ≥ 90 then VitalStatus.High
      else if sys < 90 ∨ dia < 60 then VitalStatus.Low
      else VitalStatus.Normal
  | none => VitalStatus.Unknown

/-- PatientVitals::hr_assessment. -/
def hr_assessment (v : PatientVitals) : VitalStatus :=
  match v.heart_rate with
  | some hr =>
      if hr < 50 ∨ hr > 120 then VitalStatus.Critical
      else if hr < 60 ∨ hr > 100 then VitalStatus.High
      else VitalStatus.Normal
  | none => VitalStatus.Unknown

/-- PatientVitals::o2_assessment. -/
def o2_assessment (v : PatientVitals) : VitalStatus :=
  match v.oxygen_saturation with
  | some o2 =>
      if o2 < 90 then VitalStatus.Critical
      else if o2 < 95 then VitalStatus.High
      else VitalStatus.Normal
  | none => VitalStatus.Unknown

/-- PatientVitals::temp_assessment. -/
def temp_assessment (v : PatientVitals) : VitalStatus :=
  match v.temperature with
  | some temp =>
      if temp < 35 ∨ temp > 40 then VitalStatus.Critical
      else if temp < 36 ∨ temp > mkRat 77 2 then VitalStatus.High
      else VitalStatus.Normal
  | none => VitalStatus.Unknown

/-- The combinator at the heart of PatientVitals::overall_assessment,
abstracted over the four per-metric results. -/
def worst4 (s1 s2 s3 s4 : VitalStatus) : VitalStatus :=
  let assessments := [s1, s2, s3, s4]
  if assessments.any (· = VitalStatus.Critical) then VitalStatus.Critical
  else if assessments.any (· = VitalStatus.High) then VitalStatus.High
  else if assessments.any (· = VitalStatus.Low) then VitalStatus.Low
  else if assessments.all (· = VitalStatus.Normal) then VitalStatus.Normal
  else VitalStatus.Unknown

/-- PatientVitals::overall_assessment. -/
def overall_assessment (v : PatientVitals) : VitalStatus :=
  worst4 v.bp_assessment v.hr_assessment v.o2_assessment v.temp_assessment

/-- PatientVitals::suggested_triage. -/
def suggested_triage (v : PatientVitals) : Option TriageLevel :=
  match v.overall_assessment with
  | .Critical => some TriageLevel.Critical
  | .High => some TriageLevel.High
  | .Low => some TriageLevel.Medium
  | .Normal => some TriageLevel.Low
  | .Unknown => none

/-- PatientVitals::is_emergency. -/
def is_emergency (v : PatientVitals) : Bool :=
  match v.overall_assessment with
  | .Critical => true
  | .High => true
  | _ => false

end PatientVitals

/-- enums/patient_status.rs: PatientStatus. -/
inductive PatientStatus where
  | Dispatched | EnRoute | Arrived | Admitted | Discharged
  deriving DecidableEq, Repr, Fintype

namespace PatientStatus

/-- PatientStatus::next_statuses (Discharged is documented in the source
as the terminal status, with no successors). -/
def next_statuses : PatientStatus → List PatientStatus
  | .Dispatched => [.EnRoute]
  | .EnRoute => [.Arrived]
  | .Arrived => [.Admitted]
  | .Admitted => [.Discharged]
  | .Discharged => []

/-- PatientStatus::is_in_transport. -/
def is_in_transport : PatientStatus → Bool
  | .Dispatched => true
  | .EnRoute => true
  | _ => false

/-- PatientStatus::is_at_hospital. -/
def is_at_hospital : PatientStatus → Bool
  | .Arrived => true
  | .Admitted => true
  | .Discharged => true
  | _ => false

/-- PatientStatus::is_active. -/
def is_active : PatientStatus → Bool
  | .Discharged => false
  | _ => true

/-- PatientStatus::workflow_order. -/
def workflow_order : PatientStatus → Nat
  | .Dispatched => 1
  | .EnRoute => 2
  | .Arrived => 3
  | .Admitted => 4
  | .Discharged => 5

end PatientStatus

/-- entities/patient.rs: Patient (all fields of the Rust struct;
`Uuid` as `Nat`, timestamps as `Int`, JSON fields as `JsonValue`). -/
structure Patient where
  id : Nat
  patient_number : String
  national_id : Option String
  first_name : String
  last_name : String
  age : Int
  gender : String
  chief_complaint : String
  triage_level : TriageLevel
  status : PatientStatus
  hospital_id : Nat
  assigned_staff_id : Option Nat
  ambulance_id : Option Nat
  bed_id : Option Nat
  emergency_contacts : JsonValue
  medical_history : JsonValue
  allergies : JsonValue
  insurance_info : JsonValue
  incident_location : Option String
  incident_time : Option Int
  created_at : Int
  updated_at : Int

namespace Patient

/-- Patient::update_status. The Rust method mutates in place and calls
`Utc::now()`; here the state is passed through and the clock reading is
the explicit `now` argument. Note the source condition:
`next_statuses.contains(&new_status) || next_statuses.is_empty()`. -/
def update_status (p : Patient) (new_status : PatientStatus) (now : Int) :
    Patient :=
  let next := p.status.next_statuses
  if next.contains new_status || next.isEmpty then
    { p with status := new_status, updated_at := now }
  else
    p

/-- Patient::get_allergies. -/
def get_allergies (p : Patient) : List String :=
  match p.allergies with
  | .arr xs => xs.filterMap JsonValue.as_str
  | _ => []

/-- Patient::add_allergy. -/
def add_allergy (p : Patient) (allergy : String) (now : Int) : Patient :=
  match p.allergies with
  | .arr xs =>
      if xs.any (fun a => a.as_str == some allergy) then p
      else { p with allergies := .arr (xs ++ [.str allergy]),
                    updated_at := now }
  | _ => p

end Patient

/-- entities/hospital.rs: Hospital (all fields of the Rust struct). -/
structure Hospital where
  id : Nat
  name : String
  license_number : String
  location : String
  address : String
  phone_number : String
  email : String
  total_beds : Int
  available_beds : Int
  specialties : JsonValue
  hospital_type : String
  status : String
  created_at : Int
  updated_at : Int

namespace Hospital

/-- Hospital::update_available_beds: the argument is clamped by
`available_beds.max(0).min(self.total_beds)`. -/
def update_available_beds (h : Hospital) (available_beds : Int)
    (now : Int) : Hospital :=
  { h with available_beds := min (max available_beds 0) h.total_beds,
           updated_at := now }

/-- Hospital::has_available_beds. -/
def has_available_beds (h : Hospital) : Bool :=
  h.available_beds > 0

end Hospital

/-- enums/availability_status.rs: AvailabilityStatus. -/
inductive AvailabilityStatus where
  | Available | Busy | OffDuty | OnCall
  deriving DecidableEq, Repr, Fintype

namespace AvailabilityStatus

/-- AvailabilityStatus::can_take_assignment. -/
def can_take_assignment : AvailabilityStatus → Bool
  | .Available => true
  | .OnCall => true
  | _ => false

/-- AvailabilityStatus::is_working. -/
def is_working : AvailabilityStatus → Bool
  | .Available => true
  | .Busy => true
  | .OnCall => true
  | _ => false

/-- AvailabilityStatus::assignment_priority (lower = better). -/
def assignment_priority : AvailabilityStatus → Nat
  | .Available => 1
  | .OnCall => 2
  | .Busy => 3
  | .OffDuty => 4

end AvailabilityStatus

/-- Rust `str::eq_ignore_ascii_case` on one character: ASCII letters are
compared after lowering, every other character unchanged. -/
def asciiLowerChar (c : Char) : Char :=
  if 'A' ≤ c ∧ c ≤ 'Z' then Char.ofNat (c.toNat + 32) else c

/-- Rust `str::eq_ignore_ascii_case`: equal length and bytewise equality
after ASCII lowercasing — on valid UTF-8 this coincides with
characterwise comparison after `asciiLowerChar`. -/
def eqIgnoreAsciiCase (a b : String) : Bool :=
  a.data.map asciiLowerChar == b.data.map asciiLowerChar

/-- Hospital::get_specialties. -/
def Hospital.get_specialties (h : Hospital) : List String :=
  match h.specialties with
  | .arr xs => xs.filterMap JsonValue.as_str
  | _ => []

/-- Hospital::has_specialty (case-insensitive lookup). -/
def Hospital.has_specialty (h : Hospital) (specialty : String) : Bool :=
  h.get_specialties.any (fun s => eqIgnoreAsciiCase s specialty)

/-- entities/medical_staff.rs: MedicalStaff (all fields of the Rust
struct). -/
structure MedicalStaff where
  id : Nat
  user_id : Nat
  hospital_id : Nat
  staff_id : String
  specialty : String
  availability_status : AvailabilityStatus
  license_number : String
  certifications : JsonValue
  shift_schedule : JsonValue
  department : String
  seniority_level : String
  created_at : Int
  updated_at : Int

namespace MedicalStaff

/-- The seniority bonus computed inside MedicalStaff::assignment_priority
(a `match` on the seniority string with a catch-all arm). -/
def seniorityBonus (s : String) : Nat :=
  if s = "Director" then 0
  else if s = "Consultant" then 1
  else if s = "Senior" then 2
  else if s = "Junior" then 3
  else 4

/-- MedicalStaff::assignment_priority:
`availability_priority * 10 + seniority_bonus` (u8; maximum value 44,
so no overflow). -/
def assignment_priority (m : MedicalStaff) : Nat :=
  m.availability_status.assignment_priority * 10 +
    seniorityBonus m.seniority_level

/-- MedicalStaff::get_certifications. -/
def get_certifications (m : MedicalStaff) : List String :=
  match m.certifications with
  | .arr xs => xs.filterMap JsonValue.as_str
  | _ => []

/-- MedicalStaff::has_certification (case-insensitive lookup). -/
def has_certification (m : MedicalStaff) (certification : String) : Bool :=
  m.get_certifications.any (fun c => eqIgnoreAsciiCase c certification)

/-- MedicalStaff::add_certification. -/
def add_certification (m : MedicalStaff) (certification : String)
    (now : Int) : MedicalStaff :=
  match m.certifications with
  | .arr xs =>
      if xs.any (fun c => c.as_str == some certification) then m
      else { m with certifications := .arr (xs ++ [.str certification]),
                    updated_at := now }
  | _ => m

end MedicalStaff

/-- enums/bed_type.rs: BedType. -/
inductive BedType where
  | General | Icu | Emergency | Isolation | Pediatric
  deriving DecidableEq, Repr, Fintype

namespace BedType

/-- BedType::is_suitable_for_triage. -/
def is_suitable_for_triage (b : BedType) (triage_level : TriageLevel) :
    Bool :=
  match b, triage_level with
  | .Icu, .Critical => true
  | .Emergency, .Critical => true
  | .Emergency, .High => true
  | .General, .Medium => true
  | .General, .Low => true
  | .Isolation, _ => true
  | .Pediatric, _ => false
  | _, _ => false

/-- BedType::assignment_priority (lower number = higher priority). -/
def assignment_priority : BedType → Nat
  | .Icu => 1
  | .Emergency => 2
  | .Isolation => 3
  | .Pediatric => 4
  | .General => 5

end BedType

/-!
Spec-side definitions (written from the specification's wording, for the
refinement claims; each is compared with the corresponding source
function above).
-/

/-- Spec wording (§4.1): blood pressure is Critical if systolic ≥ 180 or
diastolic ≥ 120; High if systolic ≥ 140 or diastolic ≥ 90; Low if
systolic < 90 or diastolic < 60; else Normal; Unknown unless both
readings are present. -/
def bp_assessment_spec (sys dia : Option Int) : VitalStatus :=
  match sys, dia with
  | some s, some d =>
      if s ≥ 180 ∨ d ≥ 120 then VitalStatus.Critical
      else if s ≥ 140 ∨ d ≥ 90 then VitalStatus.High
      else if s < 90 ∨ d < 60 then VitalStatus.Low
      else VitalStatus.Normal
  | _, _ => VitalStatus.Unknown

/-- Spec wording (§4.1): heart rate is Critical if < 50 or > 120, High
if < 60 or > 100, else Normal; Unknown when absent. -/
def hr_assessment_spec (hr : Option Int) : VitalStatus :=
  match hr with
  | some h =>
      if h < 50 ∨ h > 120 then VitalStatus.Critical
      else if h < 60 ∨ h > 100 then VitalStatus.High
      else VitalStatus.Normal
  | none => VitalStatus.Unknown

/-- Spec wording (§4.1): oxygen saturation is Critical if < 90, High if
< 95, else Normal; Unknown when absent. -/
def o2_assessment_spec (o2 : Option Int) : VitalStatus :=
  match o2 with
  | some o =>
      if o < 90 then VitalStatus.Critical
      else if o < 95 then VitalStatus.High
      else VitalStatus.Normal
  | none => VitalStatus.Unknown

/-- Spec wording (§4.1): temperature is Critical if < 35.0 or > 40.0,
High if < 36.0 or > 38.5, else Normal; Unknown when absent
(38.5 is written as mkRat 77 2). -/
def temp_assessment_spec (t : Option ℚ) : VitalStatus :=
  match t with
  | some temp =>
      if temp < 35 ∨ temp > 40 then VitalStatus.Critical
      else if temp < 36 ∨ temp > mkRat 77 2 then VitalStatus.High
      else VitalStatus.Normal
  | none => VitalStatus.Unknown

/-- Spec wording (§4.1, §8): overall severity is the worst per-metric
severity over the PRESENT metrics with precedence
Critical > High > Low > Normal; Normal when every present metric is
Normal; Unknown exactly when every metric is absent. -/
def overall_assessment_spec (v : PatientVitals) : VitalStatus :=
  let present :=
    [v.bp_assessment, v.hr_assessment, v.o2_assessment,
      v.temp_assessment].filter (fun s => s != VitalStatus.Unknown)
  if present.isEmpty then VitalStatus.Unknown
  else if present.contains VitalStatus.Critical then VitalStatus.Critical
  else if present.contains VitalStatus.High then VitalStatus.High
  else if present.contains VitalStatus.Low then VitalStatus.Low
  else VitalStatus.Normal

/-- Spec wording (§4.1): suggested triage mapping
Critical→Critical, High→High, Low→Medium, Normal→Low, Unknown→none. -/
def triage_suggestion_spec : VitalStatus → Option TriageLevel
  | .Critical => some TriageLevel.Critical
  | .High => some TriageLevel.High
  | .Low => some TriageLevel.Medium
  | .Normal => some TriageLevel.Low
  | .Unknown => none

/-- The §8 scenario vitals: systolic 190, diastolic 125, heart rate 75,
SpO2 98, temperature 37.0 °C. -/
def scenarioVitals : PatientVitals :=
  { systolic_bp := some 190
    diastolic_bp := some 125
    heart_rate := some 75
    oxygen_saturation := some 98
    temperature := some 37
    respiratory_rate := none
    weight := none }

/-- An Available Director, used by the witness theorems. -/
def staffDirector : MedicalStaff :=
  { id := 10, user_id := 11, hospital_id := 2, staff_id := "STAFF-001",
    specialty := "Emergency Medicine", availability_status := .Available,
    license_number := "LIC-1", certifications := .arr [],
    shift_schedule := .obj [], department := "ED",
    seniority_level := "Director", created_at := 0, updated_at := 0 }

/-- An Available Junior, used by the witness theorems. -/
def staffJunior : MedicalStaff :=
  { staffDirector with id := 12, seniority_level := "Junior" }

/-- An OffDuty staff member with an unlisted seniority string, used by
the witness theorems. -/
def staffOffDutyNurse : MedicalStaff :=
  { staffDirector with id := 13, availability_status := .OffDuty,
                       seniority_level := "Nurse" }

/-- A concrete patient record used by the closed theorems below. -/
def basePatient : Patient :=
  { id := 1, patient_number := "PAT-001", national_id := none,
    first_name := "A", last_name := "B", age := 45, gender := "Male",
    chief_complaint := "Chest Pain", triage_level := .Critical,
    status := .Dispatched, hospital_id := 2,
    assigned_staff_id := none, ambulance_id := none, bed_id := none,
    emergency_contacts := .obj [], medical_history := .obj [],
    allergies := .arr [], insurance_info := .obj [],
    incident_location := none, incident_time := none,
    created_at := 0, updated_at := 0 }

/-- A concrete hospital record used by the witness theorems. -/
def baseHospital : Hospital :=
  { id := 2, name := "Dubai Hospital", license_number := "DHA-001",
    location := "25.2697,55.3094", address := "Oud Metha",
    phone_number := "+97143193000", email := "info@hospital.ae",
    total_beds := 100, available_beds := 100,
    specialties := .arr [.str "Emergency Medicine", .str "Cardiology"],
    hospital_type := "Public", status := "Active",
    created_at := 0, updated_at := 0 }

/-- Vitals with blood pressure absent and every present metric in its
normal range: heart rate 75, SpO2 98, temperature 37.0 °C. -/
def mixedVitals : PatientVitals :=
  { systolic_bp := none
    diastolic_bp := none
    heart_rate := some 75
    oxygen_saturation := some 98
    temperature := some 37
    respiratory_rate := none
    weight := none }

/-- The base patient after discharge, used by the closed theorems on
the broken terminal state. -/
def dischargedPatient : Patient :=
  { basePatient with status := .Discharged }

/-- The base patient carrying one recorded allergy, for the witness. -/
def patientPenicillin : Patient :=
  { basePatient with allergies := .arr [.str "Penicillin"] }

/-- The director staff record carrying one certification, for the
witness. -/
def staffWithACLS : MedicalStaff :=
  { staffDirector with certifications := .arr [.str "ACLS"] }

/-!  Theorems for the claims. -/

/-- C6: the bed-type compatibility table and the best-first bed-type
priority order ICU, Emergency, Isolation, Pediatric, General. -/
theorem bed_type_suitability_and_priority :
    (∀ (b : BedType) (t : TriageLevel),
      b.is_suitable_for_triage t = true ↔
        ((b = BedType.Icu ∧ t = TriageLevel.Critical) ∨
         (b = BedType.Emergency ∧
           (t = TriageLevel.Critical ∨ t = TriageLevel.High)) ∨
         (b = BedType.General ∧
           (t = TriageLevel.Medium ∨ t = TriageLevel.Low)) ∨
         b = BedType.Isolation)) ∧
    (∀ t : TriageLevel, BedType.is_suitable_for_triage .Pediatric t = false) ∧
    BedType.assignment_priority .Icu < BedType.assignment_priority .Emergency ∧
    BedType.assignment_priority .Emergency <
      BedType.assignment_priority .Isolation ∧
    BedType.assignment_priority .Isolation <
      BedType.assignment_priority .Pediatric ∧
    BedType.assignment_priority .Pediatric <
      BedType.assignment_priority .General := by
  decide

/-- C7: each per-metric assessment agrees with the spec's ordered
threshold rules, including Unknown on absent readings. -/
theorem per_metric_thresholds_match_spec (v : PatientVitals) :
    v.bp_assessment = bp_assessment_spec v.systolic_bp v.diastolic_bp ∧
    v.hr_assessment = hr_assessment_spec v.heart_rate ∧
    v.o2_assessment = o2_assessment_spec v.oxygen_saturation ∧
    v.temp_assessment = temp_assessment_spec v.temperature := by
  refine ⟨?_, ?_, ?_, ?_⟩
  · cases hs : v.systolic_bp <;> cases hd : v.diastolic_bp <;>
      simp [PatientVitals.bp_assessment, PatientVitals.blood_pressure,
        bp_assessment_spec, hs, hd]
  · cases hh : v.heart_rate <;>
      simp [PatientVitals.hr_assessment, hr_assessment_spec, hh]
  · cases ho : v.oxygen_saturation <;>
      simp [PatientVitals.o2_assessment, o2_assessment_spec, ho]
  · cases ht : v.temperature <;>
      simp [PatientVitals.temp_assessment, temp_assessment_spec, ht]

/-- C8: suggested_triage realises the spec's severity-to-triage mapping
(with no suggestion exactly on Unknown), is_emergency holds exactly for
overall severity Critical or High, and the §8 scenario vitals assess as
overall Critical, suggested triage Critical, emergency true. -/
theorem suggested_triage_mapping_and_emergency (v : PatientVitals) :
    v.suggested_triage = triage_suggestion_spec v.overall_assessment ∧
    (v.suggested_triage = none ↔ v.overall_assessment = .Unknown) ∧
    (v.is_emergency = true ↔
      (v.overall_assessment = .Critical ∨ v.overall_assessment = .High)) ∧
    scenarioVitals.overall_assessment = .Critical ∧
    scenarioVitals.suggested_triage = some TriageLevel.Critical ∧
    scenarioVitals.is_emergency = true := by
  refine ⟨?_, ?_, ?_, by decide, by decide, by decide⟩
  · cases h : v.overall_assessment <;>
      simp [PatientVitals.suggested_triage, triage_suggestion_spec, h]
  · cases h : v.overall_assessment <;>
      simp [PatientVitals.suggested_triage, h]
  · cases h : v.overall_assessment <;>
      simp [PatientVitals.is_emergency, h]

/-- C4: for a hospital with a nonnegative bed total,
update_available_beds clamps its argument into [0, total_beds], leaves
total_beds unchanged, and therefore no sequence of updates can drive
available_beds out of range. -/
theorem update_available_beds_in_range (h : Hospital) (n now : Int)
    (ht : 0 ≤ h.total_beds) :
    (0 ≤ (h.update_available_beds n now).available_beds ∧
      (h.update_available_beds n now).available_beds ≤ h.total_beds) ∧
    (h.update_available_beds n now).total_beds = h.total_beds ∧
    ∀ updates : List (Int × Int),
      0 ≤ (updates.foldl
            (fun acc u => acc.update_available_beds u.1 u.2)
            (h.update_available_beds n now)).available_beds ∧
      (updates.foldl
            (fun acc u => acc.update_available_beds u.1 u.2)
            (h.update_available_beds n now)).available_beds ≤
        (updates.foldl
            (fun acc u => acc.update_available_beds u.1 u.2)
            (h.update_available_beds n now)).total_beds := by
  have step : ∀ (g : Hospital) (m t : Int), 0 ≤ g.total_beds →
      (0 ≤ (g.update_available_beds m t).available_beds ∧
        (g.update_available_beds m t).available_beds ≤ g.total_beds) ∧
      (g.update_available_beds m t).total_beds = g.total_beds := by
    intro g m t hg
    refine ⟨⟨?_, ?_⟩, rfl⟩
    · exact le_min (le_max_right m 0) hg
    · exact min_le_right _ _
  refine ⟨(step h n now ht).1, (step h n now ht).2, ?_⟩
  intro updates
  induction updates generalizing h n now with
  | nil =>
      have := step h n now ht
      simpa [this.2] using this.1
  | cons u rest ih =>
      have h1 := step h n now ht
      simpa using ih (h.update_available_beds n now) u.1 u.2
        (h1.2 ▸ ht)

/-- Any seniority bonus is at most 4. -/
theorem seniorityBonus_le_four (s : String) :
    MedicalStaff.seniorityBonus s ≤ 4 := by
  unfold MedicalStaff.seniorityBonus
  split_ifs <;> omega

/-- C5: the staff priority score is availability_priority × 10 +
seniority_bonus with the tabulated values (unknown seniority scoring 4);
an Available Director scores no worse than an Available Junior, and an
Available staff member always scores no worse (no higher) than an
OffDuty one, regardless of seniority. -/
theorem staff_priority_formula_and_monotone
    (m s t u w : MedicalStaff) (x : String)
    (hs : s.availability_status = .Available)
    (hsd : s.seniority_level = "Director")
    (ht : t.availability_status = .Available)
    (htj : t.seniority_level = "Junior")
    (hu : u.availability_status = .OffDuty)
    (hw : w.availability_status = .Available)
    (hx1 : x ≠ "Director") (hx2 : x ≠ "Consultant")
    (hx3 : x ≠ "Senior") (hx4 : x ≠ "Junior") :
    m.assignment_priority =
      m.availability_status.assignment_priority * 10 +
        MedicalStaff.seniorityBonus m.seniority_level ∧
    AvailabilityStatus.assignment_priority .Available = 1 ∧
    AvailabilityStatus.assignment_priority .OnCall = 2 ∧
    AvailabilityStatus.assignment_priority .Busy = 3 ∧
    AvailabilityStatus.assignment_priority .OffDuty = 4 ∧
    MedicalStaff.seniorityBonus "Director" = 0 ∧
    MedicalStaff.seniorityBonus "Consultant" = 1 ∧
    MedicalStaff.seniorityBonus "Senior" = 2 ∧
    MedicalStaff.seniorityBonus "Junior" = 3 ∧
    MedicalStaff.seniorityBonus x = 4 ∧
    s.assignment_priority ≤ t.assignment_priority ∧
    w.assignment_priority ≤ u.assignment_priority := by
  refine ⟨rfl, rfl, rfl, rfl, rfl, by decide, by decide, by decide,
    by decide, ?_, ?_, ?_⟩
  · simp [MedicalStaff.seniorityBonus, hx1, hx2, hx3, hx4]
  · simp [MedicalStaff.assignment_priority, hs, hsd, ht, htj,
      AvailabilityStatus.assignment_priority, MedicalStaff.seniorityBonus]
  · have hb1 := seniorityBonus_le_four w.seniority_level
    have hb2 : 0 ≤ MedicalStaff.seniorityBonus u.seniority_level :=
      Nat.zero_le _
    simp only [MedicalStaff.assignment_priority, hu, hw,
      AvailabilityStatus.assignment_priority]
    omega

/-- C5 witness: the monotonicity consequences at concrete staff
records. -/
theorem staff_priority_formula_and_monotone_witness :
    staffDirector.assignment_priority ≤ staffJunior.assignment_priority ∧
    staffDirector.assignment_priority ≤
      staffOffDutyNurse.assignment_priority ∧
    MedicalStaff.seniorityBonus "Nurse" = 4 := by
  have h := staff_priority_formula_and_monotone staffDirector
    staffDirector staffJunior staffOffDutyNurse staffDirector "Nurse"
    rfl rfl rfl rfl rfl rfl
    (by decide) (by decide) (by decide) (by decide)
  exact ⟨h.2.2.2.2.2.2.2.2.2.2.1, h.2.2.2.2.2.2.2.2.2.2.2,
    h.2.2.2.2.2.2.2.2.2.1⟩

/-- C10: for a patient not yet Discharged, an update_status request that
is not in the successor list of the current status leaves the entire
patient record unchanged, including updated_at. -/
theorem update_status_invalid_request_is_noop
    (p : Patient) (new_status : PatientStatus) (now : Int)
    (hnd : p.status ≠ .Discharged)
    (hinv : new_status ∉ p.status.next_statuses) :
    p.update_status new_status now = p := by
  unfold Patient.update_status
  have hne : p.status.next_statuses.isEmpty = false := by
    cases h : p.status <;> simp_all [PatientStatus.next_statuses]
  simp [hne]
  intro hmem
  exact absurd hmem hinv

/-- C10 witness: a Dispatched patient asked to jump to Arrived is left
untouched. -/
theorem update_status_invalid_request_is_noop_witness :
    basePatient.update_status .Arrived 99 = basePatient :=
  update_status_invalid_request_is_noop basePatient .Arrived 99
    (by decide) (by decide)

/-- C4 witness: clamping a negative bed count at a 100-bed hospital. -/
theorem update_available_beds_in_range_witness :
    0 ≤ (baseHospital.update_available_beds (-10) 3).available_beds ∧
    (baseHospital.update_available_beds (-10) 3).available_beds ≤
      baseHospital.total_beds :=
  (update_available_beds_in_range baseHospital (-10) 3 (by decide)).1

/-- C1 counterexample: on vitals whose present metrics all assess
Normal but whose blood pressure is absent, overall_assessment returns
Unknown, while the worst-over-present-metrics reading of the spec
yields Normal — so overall severity is not the worst over present
metrics, and Unknown is returned although not every metric is absent. -/
theorem overall_assessment_not_worst_over_present :
    mixedVitals.overall_assessment = .Unknown ∧
    overall_assessment_spec mixedVitals = .Normal ∧
    mixedVitals.heart_rate ≠ none ∧
    mixedVitals.bp_assessment = .Unknown ∧
    mixedVitals.hr_assessment = .Normal ∧
    mixedVitals.o2_assessment = .Normal ∧
    mixedVitals.temp_assessment = .Normal := by
  decide

/-- C1 (amended): overall_assessment applies the precedence
Critical > High > Low over the four per-metric assessments; it returns
Normal exactly when all four metrics are present and assess Normal; and
it returns Unknown exactly when no metric assesses Critical, High or
Low and at least one metric is absent (not only when all four are
absent). -/
theorem overall_assessment_characterization (v : PatientVitals) :
    (v.overall_assessment = .Critical ↔
      (v.bp_assessment = .Critical ∨ v.hr_assessment = .Critical ∨
        v.o2_assessment = .Critical ∨ v.temp_assessment = .Critical)) ∧
    (v.overall_assessment = .High ↔
      (¬(v.bp_assessment = .Critical ∨ v.hr_assessment = .Critical ∨
          v.o2_assessment = .Critical ∨ v.temp_assessment = .Critical) ∧
        (v.bp_assessment = .High ∨ v.hr_assessment = .High ∨
          v.o2_assessment = .High ∨ v.temp_assessment = .High))) ∧
    (v.overall_assessment = .Low ↔
      (¬(v.bp_assessment = .Critical ∨ v.hr_assessment = .Critical ∨
          v.o2_assessment = .Critical ∨ v.temp_assessment = .Critical) ∧
        ¬(v.bp_assessment = .High ∨ v.hr_assessment = .High ∨
          v.o2_assessment = .High ∨ v.temp_assessment = .High) ∧
        (v.bp_assessment = .Low ∨ v.hr_assessment = .Low ∨
          v.o2_assessment = .Low ∨ v.temp_assessment = .Low))) ∧
    (v.overall_assessment = .Normal ↔
      (v.bp_assessment = .Normal ∧ v.hr_assessment = .Normal ∧
        v.o2_assessment = .Normal ∧ v.temp_assessment = .Normal)) ∧
    (v.overall_assessment = .Unknown ↔
      (¬(v.bp_assessment = .Critical ∨ v.hr_assessment = .Critical ∨
          v.o2_assessment = .Critical ∨ v.temp_assessment = .Critical) ∧
        ¬(v.bp_assessment = .High ∨ v.hr_assessment = .High ∨
          v.o2_assessment = .High ∨ v.temp_assessment = .High) ∧
        ¬(v.bp_assessment = .Low ∨ v.hr_assessment = .Low ∨
          v.o2_assessment = .Low ∨ v.temp_assessment = .Low) ∧
        (v.bp_assessment = .Unknown ∨ v.hr_assessment = .Unknown ∨
          v.o2_assessment = .Unknown ∨ v.temp_assessment = .Unknown))) ∧
    (v.bp_assessment = .Unknown ↔
      (v.systolic_bp = none ∨ v.diastolic_bp = none)) ∧
    (v.hr_assessment = .Unknown ↔ v.heart_rate = none) ∧
    (v.o2_assessment = .Unknown ↔ v.oxygen_saturation = none) ∧
    (v.temp_assessment = .Unknown ↔ v.temperature = none) := by
  have key : ∀ s1 s2 s3 s4 : VitalStatus,
      (PatientVitals.worst4 s1 s2 s3 s4 = .Critical ↔
        (s1 = .Critical ∨ s2 = .Critical ∨ s3 = .Critical ∨
          s4 = .Critical)) ∧
      (PatientVitals.worst4 s1 s2 s3 s4 = .High ↔
        (¬(s1 = .Critical ∨ s2 = .Critical ∨ s3 = .Critical ∨
            s4 = .Critical) ∧
          (s1 = .High ∨ s2 = .High ∨ s3 = .High ∨ s4 = .High))) ∧
      (PatientVitals.worst4 s1 s2 s3 s4 = .Low ↔
        (¬(s1 = .Critical ∨ s2 = .Critical ∨ s3 = .Critical ∨
            s4 = .Critical) ∧
          ¬(s1 = .High ∨ s2 = .High ∨ s3 = .High ∨ s4 = .High) ∧
          (s1 = .Low ∨ s2 = .Low ∨ s3 = .Low ∨ s4 = .Low))) ∧
      (PatientVitals.worst4 s1 s2 s3 s4 = .Normal ↔
        (s1 = .Normal ∧ s2 = .Normal ∧ s3 = .Normal ∧ s4 = .Normal)) ∧
      (PatientVitals.worst4 s1 s2 s3 s4 = .Unknown ↔
        (¬(s1 = .Critical ∨ s2 = .Critical ∨ s3 = .Critical ∨
            s4 = .Critical) ∧
          ¬(s1 = .High ∨ s2 = .High ∨ s3 = .High ∨ s4 = .High) ∧
          ¬(s1 = .Low ∨ s2 = .Low ∨ s3 = .Low ∨ s4 = .Low) ∧
          (s1 = .Unknown ∨ s2 = .Unknown ∨ s3 = .Unknown ∨
            s4 = .Unknown))) := by
    intro s1 s2 s3 s4
    cases s1 <;> cases s2 <;> cases s3 <;> cases s4 <;> decide
  obtain ⟨k1, k2, k3, k4, k5⟩ := key v.bp_assessment v.hr_assessment
    v.o2_assessment v.temp_assessment
  refine ⟨k1, k2, k3, k4, k5, ?_, ?_, ?_, ?_⟩
  · cases hs : v.systolic_bp <;> cases hd : v.diastolic_bp <;>
      simp only [PatientVitals.bp_assessment, PatientVitals.blood_pressure,
        hs, hd] <;>
      first
        | (split_ifs <;> simp)
        | simp
  · cases hh : v.heart_rate <;>
      simp only [PatientVitals.hr_assessment, hh] <;>
      first
        | (split_ifs <;> simp)
        | simp
  · cases ho : v.oxygen_saturation <;>
      simp only [PatientVitals.o2_assessment, ho] <;>
      first
        | (split_ifs <;> simp)
        | simp
  · cases ht : v.temperature <;>
      simp only [PatientVitals.temp_assessment, ht] <;>
      first
        | (split_ifs <;> simp)
        | simp

/-- C2: the transition operation has no error channel — an invalid
request from a non-terminal state silently returns the patient
unchanged rather than a validation error — and from Discharged, whose
successor list is empty, ANY requested status is applied (the
`next_statuses.is_empty()` escape), so the operation does not succeed
only on the unique defined successor. -/
theorem update_status_silent_noop_and_discharged_escape :
    basePatient.update_status .Arrived 99 = basePatient ∧
    (dischargedPatient.update_status .Dispatched 99).status =
      .Dispatched ∧
    (dischargedPatient.update_status .Dispatched 99).updated_at = 99 := by
  exact ⟨rfl, rfl, rfl⟩

/-- C3: from the Discharged state the status DOES change again — the
empty successor list makes update_status accept any request — and the
workflow order decreases (5 to 2 here), breaking the forward-only
invariant. -/
theorem discharged_patient_workflow_order_decreases :
    (dischargedPatient.update_status .EnRoute 50).status = .EnRoute ∧
    ((dischargedPatient.update_status .EnRoute 50).status.workflow_order <
      dischargedPatient.status.workflow_order) := by
  exact ⟨rfl, by decide⟩

/-- Appending the JSON string for a value that the duplicate guard did
not find keeps the array duplicate-free. -/
theorem push_str_nodup (xs : List JsonValue) (a : String)
    (hnd : xs.Nodup)
    (hna : xs.any (fun v => v.as_str == some a) = false) :
    (xs ++ [JsonValue.str a]).Nodup := by
  refine List.Nodup.append hnd (List.nodup_singleton _) ?_
  intro x hx hx'
  have hxa : x = JsonValue.str a := by simpa using hx'
  subst hxa
  have : xs.any (fun v => v.as_str == some a) = true :=
    List.any_eq_true.mpr ⟨_, hx, by simp [JsonValue.as_str]⟩
  simp_all

/-- add_allergy keeps the allergy array duplicate-free. -/
theorem add_allergy_preserves_nodup (p : Patient) (xs : List JsonValue)
    (a : String) (now : Int) (hpa : p.allergies = .arr xs)
    (hnd : xs.Nodup) :
    ∃ ys, (p.add_allergy a now).allergies = .arr ys ∧ ys.Nodup := by
  by_cases hmem : xs.any (fun v => v.as_str == some a) = true
  · exact ⟨xs, by simp [Patient.add_allergy, hpa, hmem], hnd⟩
  · refine ⟨xs ++ [.str a], by simp [Patient.add_allergy, hpa, hmem], ?_⟩
    exact push_str_nodup xs a hnd (by simpa using hmem)

/-- add_certification keeps the certification array duplicate-free. -/
theorem add_certification_preserves_nodup (m : MedicalStaff)
    (xs : List JsonValue) (c : String) (now : Int)
    (hpc : m.certifications = .arr xs) (hnd : xs.Nodup) :
    ∃ ys, (m.add_certification c now).certifications = .arr ys ∧
      ys.Nodup := by
  by_cases hmem : xs.any (fun v => v.as_str == some c) = true
  · exact ⟨xs, by simp [MedicalStaff.add_certification, hpc, hmem], hnd⟩
  · refine ⟨xs ++ [.str c],
      by simp [MedicalStaff.add_certification, hpc, hmem], ?_⟩
    exact push_str_nodup xs c hnd (by simpa using hmem)

/-- Two strings equal up to ASCII case test identically against any
third string. -/
theorem eqIgnoreAsciiCase_congr (c c' : String)
    (h : eqIgnoreAsciiCase c c' = true) (s : String) :
    eqIgnoreAsciiCase s c = eqIgnoreAsciiCase s c' := by
  have h' : c.data.map asciiLowerChar = c'.data.map asciiLowerChar := by
    simpa [eqIgnoreAsciiCase] using h
  simp [eqIgnoreAsciiCase, h']

/-- C9: the allergy and certification collections stay duplicate-free
across any sequence of add calls — adding an already-present entry
returns the record unchanged, and a fresh entry is appended after a
membership guard — and the certification/specialty lookups are
ASCII-case-insensitive. -/
theorem collections_nodup_and_case_insensitive_lookup :
    (∀ (p : Patient) (xs : List JsonValue) (a : String) (now : Int),
      p.allergies = .arr xs →
      xs.any (fun v => v.as_str == some a) = true →
      p.add_allergy a now = p) ∧
    (∀ (p : Patient) (xs : List JsonValue) (ops : List (String × Int)),
      p.allergies = .arr xs → xs.Nodup →
      ∃ ys,
        (ops.foldl (fun q op => q.add_allergy op.1 op.2) p).allergies =
          .arr ys ∧ ys.Nodup) ∧
    (∀ (m : MedicalStaff) (xs : List JsonValue) (c : String) (now : Int),
      m.certifications = .arr xs →
      xs.any (fun v => v.as_str == some c) = true →
      m.add_certification c now = m) ∧
    (∀ (m : MedicalStaff) (xs : List JsonValue)
        (ops : List (String × Int)),
      m.certifications = .arr xs → xs.Nodup →
      ∃ ys,
        (ops.foldl (fun q op => q.add_certification op.1 op.2)
            m).certifications = .arr ys ∧ ys.Nodup) ∧
    (∀ (m : MedicalStaff) (c c' : String),
      eqIgnoreAsciiCase c c' = true →
      m.has_certification c = m.has_certification c') ∧
    (∀ (h : Hospital) (s s' : String),
      eqIgnoreAsciiCase s s' = true →
      h.has_specialty s = h.has_specialty s') := by
  refine ⟨?_, ?_, ?_, ?_, ?_, ?_⟩
  · intro p xs a now hpa hmem
    simp [Patient.add_allergy, hpa, hmem]
  · intro p xs ops hpa hnd
    induction ops generalizing p xs with
    | nil => exact ⟨xs, hpa, hnd⟩
    | cons op rest ih =>
        obtain ⟨ys, hy, hyn⟩ :=
          add_allergy_preserves_nodup p xs op.1 op.2 hpa hnd
        simpa using ih (p.add_allergy op.1 op.2) ys hy hyn
  · intro m xs c now hpc hmem
    simp [MedicalStaff.add_certification, hpc, hmem]
  · intro m xs ops hpc hnd
    induction ops generalizing m xs with
    | nil => exact ⟨xs, hpc, hnd⟩
    | cons op rest ih =>
        obtain ⟨ys, hy, hyn⟩ :=
          add_certification_preserves_nodup m xs op.1 op.2 hpc hnd
        simpa using ih (m.add_certification op.1 op.2) ys hy hyn
  · intro m c c' hcc
    have hr : ∀ s, eqIgnoreAsciiCase s c = eqIgnoreAsciiCase s c' :=
      eqIgnoreAsciiCase_congr c c' hcc
    simp only [MedicalStaff.has_certification, hr]
  · intro h s s' hss
    have hr : ∀ x, eqIgnoreAsciiCase x s = eqIgnoreAsciiCase x s' :=
      eqIgnoreAsciiCase_congr s s' hss
    simp only [Hospital.has_specialty, hr]

/-- C9 witness: re-adding a present allergy or certification is the
identity, and the lookups answer the same for lowercase queries. -/
theorem collections_nodup_and_case_insensitive_lookup_witness :
    patientPenicillin.add_allergy "Penicillin" 7 = patientPenicillin ∧
    staffWithACLS.add_certification "ACLS" 7 = staffWithACLS ∧
    staffWithACLS.has_certification "acls" =
      staffWithACLS.has_certification "ACLS" ∧
    baseHospital.has_specialty "cardiology" =
      baseHospital.has_specialty "Cardiology" := by
  obtain ⟨h1, h2, h3, h4, h5, h6⟩ :=
    collections_nodup_and_case_insensitive_lookup
  exact ⟨h1 patientPenicillin [.str "Penicillin"] "Penicillin" 7 rfl
      (by decide),
    h3 staffWithACLS [.str "ACLS"] "ACLS" 7 rfl (by decide),
    h5 staffWithACLS "acls" "ACLS" (by decide),
    h6 baseHospital "cardiology" "Cardiology" (by decide)⟩

end ERS
